import Mathlib

set_option maxRecDepth 100000

/-
  Verification of the status-query HTTP service
  (scripts/tc-api-server.py): a shallow embedding of the six route
  handlers and proofs of the specified behavioural properties.

  Modelling conventions:
  * The command runner (`subprocess.run`) is an explicit argument of type
    `Except String CmdResult`: `Except.error e` models `subprocess.run`
    raising an exception whose `str(e)` is `e`; `Except.ok r` models a
    completed process (note: a non-zero exit status does NOT raise in the
    source, since `check=True` is not passed, so it is an `ok` result).
  * `datetime.now().isoformat()` is an explicit `now : String` argument.
  * JSON values are the inductive `Json`; `json.loads` is embedded as
    `Json.parse`, a recursive-descent parser over the character list.
    Two documented restrictions against the Python library: numeric
    literals are modelled only for integers (a `.`/`e`/`E` after the
    integer part makes the parse fail rather than produce a float, which
    no handler ever inspects numerically), and `\uXXXX` string escapes
    are rejected.  Objects are built Python-`dict`-style: a duplicated
    key keeps its first position and takes the last value.
  * Member order inside response objects follows the source literals;
    the claims never depend on serializer key ordering.
  * Python `str.strip` / `split` are embedded as `trimChars` / `splitNl`
    on character lists (ASCII whitespace, faithful to the outputs at hand).
-/

/-- JSON values, the result type of the embedded `json.loads`. -/
inductive Json where
  | null : Json
  | bool (b : Bool) : Json
  | num (n : Int) : Json
  | str (s : String) : Json
  | arr (items : List Json) : Json
  | obj (fields : List (String × Json)) : Json

/-- ASCII whitespace recognised by JSON and by `str.strip` on this data. -/
def isWsChar (c : Char) : Bool :=
  (c = ' ') || (c = '\t') || (c = '\n') || (c = '\r')

/-- Embeds Python `str.strip()` on a character list. -/
def trimChars (cs : List Char) : List Char :=
  ((cs.dropWhile isWsChar).reverse.dropWhile isWsChar).reverse

/-- Embeds Python `str.split(chr 10)`: split on every newline, keeping
empty segments; the empty input yields one empty segment. -/
def splitNl : List Char → List (List Char)
  | [] => [[]]
  | c :: rest =>
    let r := splitNl rest
    if c = '\n' then [] :: r
    else
      match r with
      | h :: t => (c :: h) :: t
      | [] => [[c]]

/-- Skip JSON whitespace. -/
def skipWs : List Char → List Char
  | c :: cs => if isWsChar c then skipWs cs else c :: cs
  | [] => []

/-- String-body parser (after the opening quote): handles the JSON
escapes other than a unicode escape, rejects raw control characters. -/
def parseStringAux (acc : List Char) : List Char → Option (String × List Char)
  | [] => none
  | '"' :: rest => some (String.mk acc.reverse, rest)
  | '\\' :: c :: rest =>
    match c with
    | '"' => parseStringAux ('"' :: acc) rest
    | '\\' => parseStringAux ('\\' :: acc) rest
    | '/' => parseStringAux ('/' :: acc) rest
    | 'n' => parseStringAux ('\n' :: acc) rest
    | 't' => parseStringAux ('\t' :: acc) rest
    | 'r' => parseStringAux ('\r' :: acc) rest
    | 'b' => parseStringAux ('\x08' :: acc) rest
    | 'f' => parseStringAux ('\x0c' :: acc) rest
    | _ => none
  | '\\' :: [] => none
  | c :: rest =>
    if c.toNat < 32 then none else parseStringAux (c :: acc) rest

/-- Digit-run value accumulator. -/
def digitsVal (acc : Nat) : List Char → Nat × List Char
  | c :: rest =>
    if c.isDigit then digitsVal (acc * 10 + (c.toNat - 48)) rest
    else (acc, c :: rest)
  | [] => (acc, [])

/-- Integer-literal parser, enforcing the JSON grammar (no leading
zeros); fails on a float continuation so that a float-valued document
is outside the model rather than silently misread. -/
def parseIntLit (cs : List Char) : Option (Int × List Char) :=
  let core : List Char → Option (Nat × List Char) := fun l =>
    match l with
    | '0' :: rest =>
      match rest with
      | c :: _ => if c.isDigit then none else some (0, rest)
      | [] => some (0, [])
    | c :: rest =>
      if c.isDigit then some (digitsVal (c.toNat - 48) rest) else none
    | [] => none
  match cs with
  | '-' :: rest =>
    match core rest with
    | some (n, r) =>
      match r with
      | c :: _ => if c = '.' || c = 'e' || c = 'E' then none else some (-(n : Int), r)
      | [] => some (-(n : Int), [])
    | none => none
  | _ =>
    match core cs with
    | some (n, r) =>
      match r with
      | c :: _ => if c = '.' || c = 'e' || c = 'E' then none else some ((n : Int), r)
      | [] => some ((n : Int), [])
    | none => none

/-- Python-`dict` member insertion: an existing key keeps its position
and receives the new value, a new key is appended. -/
def insertMember (fields : List (String × Json)) (k : String) (v : Json) :
    List (String × Json) :=
  if fields.any (fun p => p.1 = k) then
    fields.map (fun p => if p.1 = k then (k, v) else p)
  else
    fields ++ [(k, v)]

mutual

/-- Fuel-indexed JSON value parser (recursive descent, as `json.loads`). -/
def parseVal : Nat → List Char → Option (Json × List Char)
  | 0, _ => none
  | fuel + 1, cs =>
    match skipWs cs with
    | 'n' :: 'u' :: 'l' :: 'l' :: rest => some (.null, rest)
    | 't' :: 'r' :: 'u' :: 'e' :: rest => some (.bool true, rest)
    | 'f' :: 'a' :: 'l' :: 's' :: 'e' :: rest => some (.bool false, rest)
    | '"' :: rest =>
      match parseStringAux [] rest with
      | some (s, r) => some (.str s, r)
      | none => none
    | '[' :: rest =>
      match skipWs rest with
      | ']' :: r => some (.arr [], r)
      | other => parseElems fuel other
    | '{' :: rest =>
      match skipWs rest with
      | '}' :: r => some (.obj [], r)
      | other => parseMembers fuel [] other
    | other => parseIntLit other |>.map (fun p => (.num p.1, p.2))

/-- Array elements after the opening bracket (at least one element). -/
def parseElems : Nat → List Char → Option (Json × List Char)
  | 0, _ => none
  | fuel + 1, cs =>
    match parseVal fuel cs with
    | none => none
    | some (v, rest) =>
      match skipWs rest with
      | ']' :: r => some (.arr [v], r)
      | ',' :: r =>
        match parseElems fuel r with
        | some (.arr vs, r2) => some (.arr (v :: vs), r2)
        | _ => none
      | _ => none

/-- Object members after the opening brace (at least one member). -/
def parseMembers : Nat → List (String × Json) → List Char → Option (Json × List Char)
  | 0, _, _ => none
  | fuel + 1, acc, cs =>
    match skipWs cs with
    | '"' :: rest =>
      match parseStringAux [] rest with
      | none => none
      | some (k, r1) =>
        match skipWs r1 with
        | ':' :: r2 =>
          match parseVal fuel r2 with
          | none => none
          | some (v, r3) =>
            match skipWs r3 with
            | '}' :: r4 => some (.obj (insertMember acc k v), r4)
            | ',' :: r4 => parseMembers fuel (insertMember acc k v) r4
            | _ => none
        | _ => none
    | _ => none

end

/-- Embeds `json.loads`: the whole input must be one JSON value
surrounded only by whitespace. -/
def Json.parse (s : String) : Option Json :=
  match parseVal (s.length + 1) s.toList with
  | some (v, rest) => if (skipWs rest).isEmpty then some v else none
  | none => none

/-- First-match association lookup (the parser already collapses
duplicate keys, so this is Python `dict` lookup). -/
def lookupField (fields : List (String × Json)) (k : String) : Option Json :=
  match fields with
  | [] => none
  | (k2, v) :: rest => if k2 = k then some v else lookupField rest k

/-- Python subscripting `j[k]`: a present key of a dict yields its
value; a missing key (`KeyError`) or a non-dict receiver (`TypeError`)
raises, modelled as `none`. -/
def Json.index (j : Json) (k : String) : Option Json :=
  match j with
  | .obj fields => lookupField fields k
  | _ => none

/-- Python `d.get(k, default)`: only a dict has `.get` (otherwise
`AttributeError`, modelled as `none`); a missing key yields the default. -/
def dictGetD (j : Json) (k : String) (d : Json) : Option Json :=
  match j with
  | .obj fields =>
    match lookupField fields k with
    | some v => some v
    | none => some d
  | _ => none

/-- Python iteration `for x in j`: a list yields its elements, a dict
its keys, a string its characters; other values raise `TypeError`
(`none`). -/
def Json.iterate (j : Json) : Option (List Json) :=
  match j with
  | .arr items => some items
  | .obj fields => some (fields.map (fun p => Json.str p.1))
  | .str s => some (s.toList.map (fun c => Json.str (String.mk [c])))
  | _ => none

/-- The result of a completed external process (`subprocess.run` with
`capture_output=True, text=True`). -/
structure CmdResult where
  stdout : String
  stderr : String
  exitStatus : Int

/-- An HTTP response: status code plus JSON body (Flask `jsonify`,
default status 200, or an explicit 500). -/
structure HttpResponse where
  status : Nat
  body : Json

/-- Field access on a response body (for stating which payload fields
are present). -/
def HttpResponse.field (resp : HttpResponse) (k : String) : Option Json :=
  resp.body.index k

/- The TC_INFO branding constants. -/

def tcPlatform : String := "TC Enterprise DevOps Platform™"

def tcOwner : String := "Temitayo Charles"

def tcVersion : String := "1.0"

def tcTrademark : String := "© 2025 Temitayo Charles. All Rights Reserved."

def tcDomain : String := "temitayocharles.online"

/-- Abstraction of `str(e)` for the `json.JSONDecodeError` raised by a
failed `json.loads` (the library's position text is not modelled). -/
def jsonDecodeMsg : String := "JSONDecodeError"

/-- Abstraction of `str(e)` for the `AttributeError` raised by `.get`
on a non-dict top-level document. -/
def attrErrMsg : String := "AttributeError"

/-- Abstraction of `str(e)` for the `TypeError` raised by iterating a
non-iterable `items` value. -/
def typeErrMsg : String := "TypeError"

/-- Abstraction of `str(e)` for the `KeyError`/`TypeError` raised while
extracting a required field from a service item. -/
def keyErrMsg : String := "KeyError"

/-- Handler for `GET /` (`platform_info`): static branding payload. -/
def platform_info (now : String) : HttpResponse :=
  ⟨200, .obj
    [("message", .str ("Welcome to TC Enterprise DevOps Platform™ API")),
     ("owner", .str tcOwner),
     ("platform", .str tcPlatform),
     ("version", .str tcVersion),
     ("trademark", .str tcTrademark),
     ("domain", .str tcDomain),
     ("timestamp", .str now),
     ("endpoints", .arr
       [.str ("/health"), .str ("/services"), .str ("/registry"),
        .str ("/monitoring"), .str ("/security")])]⟩

/-- The services count computed by `health_check`:
`len(stdout.strip().split(chr 10)) if stdout.strip() else 0`. -/
def serviceCount (stdout : String) : Nat :=
  let t := trimChars stdout.toList
  if t.isEmpty then 0 else (splitNl t).length

/-- Handler for `GET /health` (`health_check`): counts segments of the
stripped `kubectl get services --no-headers` output; the `except`
branch fires only when the runner raises. -/
def health_check (runner : Except String CmdResult) (now : String) : HttpResponse :=
  match runner with
  | .error e =>
    ⟨500, .obj
      [("status", .str ("error")),
       ("message", .str e),
       ("timestamp", .str now)]⟩
  | .ok result =>
    ⟨200, .obj
      [("status", .str ("healthy")),
       ("platform", .str tcPlatform),
       ("owner", .str tcOwner),
       ("services_count", .num (serviceCount result.stdout)),
       ("timestamp", .str now),
       ("uptime", .str ("operational"))]⟩

/-- Per-item extraction in `get_services`:
`service['metadata']['name']`, `service['spec']['type']`,
`service['spec']['ports']`, `service['spec']['clusterIP']`; any raise
(`KeyError`/`TypeError`) is `none` and aborts the whole request. -/
def extractService (svc : Json) : Option Json := do
  let md ← svc.index ("metadata")
  let name ← md.index ("name")
  let spec ← svc.index ("spec")
  let ty ← spec.index ("type")
  let ports ← spec.index ("ports")
  let ip ← spec.index ("clusterIP")
  return Json.obj
    [("name", name), ("type", ty), ("ports", ports), ("cluster_ip", ip)]

/-- The `for service in ...: tc_services.append(...)` loop: the first
raising item aborts the request (`none`). -/
def extractAll : List Json → Option (List Json)
  | [] => some []
  | svc :: rest =>
    match extractService svc, extractAll rest with
    | some v, some vs => some (v :: vs)
    | _, _ => none

/-- The `{"error": str(e), "timestamp": ...}` envelope of the
`/services` and `/registry` `except` branches. -/
def errEnvelope (msg now : String) : Json :=
  .obj [("error", .str msg), ("timestamp", .str now)]

/-- Handler for `GET /services` (`get_services`): parses stdout as one
JSON document, maps `items` to service summaries, aborting the whole
request on any parse or extraction failure. -/
def get_services (runner : Except String CmdResult) (now : String) : HttpResponse :=
  match runner with
  | .error e => ⟨500, errEnvelope e now⟩
  | .ok result =>
    match Json.parse result.stdout with
    | none => ⟨500, errEnvelope jsonDecodeMsg now⟩
    | some doc =>
      match dictGetD doc ("items") (.arr []) with
      | none => ⟨500, errEnvelope attrErrMsg now⟩
      | some itemsVal =>
        match itemsVal.iterate with
        | none => ⟨500, errEnvelope typeErrMsg now⟩
        | some items =>
          match extractAll items with
          | none => ⟨500, errEnvelope keyErrMsg now⟩
          | some tcServices =>
            ⟨200, .obj
              [("platform", .str tcPlatform),
               ("owner", .str tcOwner),
               ("services", .arr tcServices),
               ("total_count", .num tcServices.length),
               ("timestamp", .str now)]⟩

/-- The non-empty stripped lines of a command output: the
`for line in stdout.strip().split(chr 10): if line:` iteration. -/
def nonEmptyLines (stdout : String) : List (List Char) :=
  (splitNl (trimChars stdout.toList)).filter (fun l => !l.isEmpty)

/-- Per-line record construction in `registry_status`: `.get` with the
`'unknown'` default for each of the four fields. -/
def buildImage (fields : List (String × Json)) : Json :=
  .obj
    [("repository", (lookupField fields ("Repository")).getD (.str ("unknown"))),
     ("tag", (lookupField fields ("Tag")).getD (.str ("unknown"))),
     ("size", (lookupField fields ("Size")).getD (.str ("unknown"))),
     ("created", (lookupField fields ("CreatedSince")).getD (.str ("unknown")))]

/-- One registry line: `json.loads(line)` then the four `.get` calls;
a parse failure or a non-dict value (no `.get`: `AttributeError`) is
swallowed by the bare `except: continue`, modelled as `none`. -/
def parseImageLine (line : List Char) : Option Json :=
  match Json.parse (String.mk line) with
  | some (.obj fields) => some (buildImage fields)
  | _ => none

/-- Handler for `GET /registry` (`registry_status`): parses each
non-empty line independently, skipping lines that fail. -/
def registry_status (runner : Except String CmdResult) (now : String) : HttpResponse :=
  match runner with
  | .error e => ⟨500, errEnvelope e now⟩
  | .ok result =>
    let images := (nonEmptyLines result.stdout).filterMap parseImageLine
    ⟨200, .obj
      [("platform", .str tcPlatform),
       ("registry", .str ("localhost:5000")),
       ("images", .arr images),
       ("total_images", .num images.length),
       ("timestamp", .str now)]⟩

/-- Handler for `GET /monitoring` (`monitoring_status`): static payload. -/
def monitoring_status (now : String) : HttpResponse :=
  ⟨200, .obj
    [("platform", .str tcPlatform),
     ("monitoring", .obj
       [("prometheus", .str ("http://localhost/prometheus/")),
        ("grafana", .str ("http://localhost/grafana/")),
        ("status", .str ("operational"))]),
     ("dashboards", .arr
       [.str ("TC Enterprise Executive Dashboard"),
        .str ("Platform Health Overview"),
        .str ("Resource Utilization")]),
     ("timestamp", .str now)]⟩

/-- Handler for `GET /security` (`security_status`): static payload. -/
def security_status (now : String) : HttpResponse :=
  ⟨200, .obj
    [("platform", .str tcPlatform),
     ("security", .obj
       [("policy", .str ("All services ClusterIP only")),
        ("reverse_proxy", .str ("NGINX Ingress Controller")),
        ("ssl", .str ("Let\x27s Encrypt certificates")),
        ("scanning", .str ("Trivy security scanner")),
        ("compliance", .str ("SOC2/ISO27001 ready"))]),
     ("trademark", .str tcTrademark),
     ("timestamp", .str now)]⟩

/- Shared helper lemmas. -/

/-- The length of a `filterMap` is the number of elements on which the
function succeeds. -/
theorem length_filterMap_eq_length_filter {α β : Type} (f : α → Option β) (l : List α) :
    (l.filterMap f).length = (l.filter (fun a => (f a).isSome)).length := by
  induction l with
  | nil => rfl
  | cons a t ih =>
    cases h : f a <;> simp [List.filterMap_cons, h, List.filter_cons, ih]

/-- A successful extraction preserves the number of items. -/
theorem extractAll_length {l vs : List Json}
    (h : extractAll l = some vs) : vs.length = l.length := by
  induction l generalizing vs with
  | nil =>
    simp only [extractAll, Option.some.injEq] at h
    subst h; rfl
  | cons svc rest ih =>
    unfold extractAll at h
    cases h1 : extractService svc <;> rw [h1] at h
    · exact absurd h (by simp)
    · cases h2 : extractAll rest <;> rw [h2] at h
      · exact absurd h (by simp)
      · simp only [Option.some.injEq] at h
        subst h
        simp [ih h2]

/-- A successful extraction maps each input item to the output at the
same position. -/
theorem extractAll_get {l vs : List Json} (h : extractAll l = some vs)
    (i : Nat) (h1 : i < l.length) (h2 : i < vs.length) :
    extractService (l.get ⟨i, h1⟩) = some (vs.get ⟨i, h2⟩) := by
  induction l generalizing vs i with
  | nil => exact absurd h1 (by simp)
  | cons svc rest ih =>
    unfold extractAll at h
    cases hx : extractService svc <;> rw [hx] at h
    · exact absurd h (by simp)
    · cases hr : extractAll rest <;> rw [hr] at h
      · exact absurd h (by simp)
      · simp only [Option.some.injEq] at h
        subst h
        cases i with
        | zero => exact hx
        | succ j =>
          exact ih hr j (Nat.lt_of_succ_lt_succ h1) (Nat.lt_of_succ_lt_succ h2)

/-- If any item fails to extract, the whole extraction fails. -/
theorem extractAll_eq_none {l : List Json} {svc : Json} (hm : svc ∈ l)
    (hn : extractService svc = none) : extractAll l = none := by
  induction l with
  | nil => cases hm
  | cons a t ih =>
    rcases List.mem_cons.mp hm with rfl | hm2
    · unfold extractAll; rw [hn]
    · unfold extractAll; rw [ih hm2]
      cases extractService a <;> rfl

/- Concrete sample inputs for witnesses and counterexamples. -/

/-- A sample response timestamp. -/
def tSample : String := "2025-01-01T00:00:00"

/-- The empty string (empty stdout / stderr). -/
def emptyS : String := ""

/-- Registry output with 3 non-empty lines of which the middle one is
not a JSON record. -/
def regSample : String :=
  "\x7b\"Repository\": \"r1\", \"Tag\": \"t\"\x7d\nnotjson\n\x7b\"Repository\": \"r2\"\x7d"

/-- Claim C1: for every completed registry-listing command result, the
response is a success envelope (HTTP 200); each non-empty line is
parsed independently, the images are exactly the successfully parsed
lines in order, and total_images equals the number of successfully
parsed lines; on the sample output with 3 lines of which 1 is
malformed, total_images = 2. -/
theorem C1_registry_skips_malformed_lines (r : CmdResult) (now : String) :
    (registry_status (.ok r) now).status = 200 ∧
    (registry_status (.ok r) now).field ("images") =
      some (.arr ((nonEmptyLines r.stdout).filterMap parseImageLine)) ∧
    (registry_status (.ok r) now).field ("total_images") =
      some (.num (((nonEmptyLines r.stdout).filter
        (fun l => (parseImageLine l).isSome)).length)) ∧
    (registry_status (.ok ⟨regSample, emptyS, 0⟩) tSample).field ("total_images") =
      some (.num 2) := by
  refine ⟨rfl, rfl, ?_, rfl⟩
  have h := length_filterMap_eq_length_filter parseImageLine (nonEmptyLines r.stdout)
  show some (Json.num ((nonEmptyLines r.stdout).filterMap parseImageLine).length) = _
  rw [h]

/-- Claim C2: when the services-listing output does not parse as a
single JSON document, the whole request fails atomically with the
error envelope and HTTP 500, and no partial services list is present. -/
theorem C2_services_atomic_parse_failure (r : CmdResult) (now : String)
    (h : Json.parse r.stdout = none) :
    get_services (.ok r) now = ⟨500, errEnvelope jsonDecodeMsg now⟩ ∧
    (get_services (.ok r) now).field ("services") = none := by
  have he : get_services (.ok r) now = ⟨500, errEnvelope jsonDecodeMsg now⟩ := by
    simp only [get_services]
    rw [h]
  exact ⟨he, by rw [he]; rfl⟩

/-- Non-JSON services output used as a concrete instance. -/
def badDoc : String := "connection refused"

/-- Witness for C2 at a concrete malformed document. -/
theorem C2_witness :
    Json.parse badDoc = none ∧
    (get_services (.ok ⟨badDoc, emptyS, 1⟩) tSample =
        ⟨500, errEnvelope jsonDecodeMsg tSample⟩ ∧
      (get_services (.ok ⟨badDoc, emptyS, 1⟩) tSample).field ("services") = none) :=
  ⟨rfl, C2_services_atomic_parse_failure ⟨badDoc, emptyS, 1⟩ tSample rfl⟩

/-- Claim C8: the three operations with no external dependency —
platform_info, monitoring_status, security_status — always return
HTTP 200 with their fixed fields present, whatever the system state. -/
theorem C8_static_operations_cannot_fail (now : String) :
    (platform_info now).status = 200 ∧
    (platform_info now).field ("platform") = some (.str tcPlatform) ∧
    (platform_info now).field ("owner") = some (.str tcOwner) ∧
    (platform_info now).field ("endpoints") =
      some (.arr
        [.str ("/health"), .str ("/services"), .str ("/registry"),
         .str ("/monitoring"), .str ("/security")]) ∧
    (monitoring_status now).status = 200 ∧
    (monitoring_status now).field ("platform") = some (.str tcPlatform) ∧
    (monitoring_status now).field ("monitoring") =
      some (.obj
        [("prometheus", .str ("http://localhost/prometheus/")),
         ("grafana", .str ("http://localhost/grafana/")),
         ("status", .str ("operational"))]) ∧
    (security_status now).status = 200 ∧
    (security_status now).field ("trademark") = some (.str tcTrademark) ∧
    (security_status now).field ("security") ≠ none :=
  ⟨rfl, rfl, rfl, rfl, rfl, rfl, rfl, rfl, rfl, fun h => nomatch h⟩

/-- Counterexample to C3: a completed command with non-zero exit status
is a "command runner failure" in the claim's sense, yet health_check
does not return an ErrorEnvelope/500 — `subprocess.run` is called
without `check=True`, so a non-zero exit raises nothing and the healthy
branch runs. -/
theorem C3_counterexample :
    (health_check (.ok ⟨emptyS, emptyS, 1⟩) tSample).status = 200 ∧
    (health_check (.ok ⟨emptyS, emptyS, 1⟩) tSample).field ("status") =
      some (.str ("healthy")) ∧
    ¬ (health_check (.ok ⟨emptyS, emptyS, 1⟩) tSample).status = 500 :=
  ⟨rfl, rfl, by decide⟩

/-- Claim C3 (amended): if the command runner raises an exception,
health_check returns an ErrorEnvelope with status "error", HTTP 500
and message equal to the failure description; a completed command —
whatever its exit status, including non-zero — yields HTTP 200 instead. -/
theorem C3_amended_health_error_on_exception (e now : String) (r : CmdResult) :
    health_check (.error e) now =
      ⟨500, .obj
        [("status", .str ("error")),
         ("message", .str e),
         ("timestamp", .str now)]⟩ ∧
    (health_check (.ok r) now).status = 200 :=
  ⟨rfl, rfl⟩

/-- Counterexample to C4: empty services-listing output makes
`json.loads` fail, so get_services returns HTTP 500, not the claimed
success with total_count 0. -/
theorem C4_counterexample :
    (get_services (.ok ⟨emptyS, emptyS, 0⟩) tSample).status = 500 ∧
    ¬ (get_services (.ok ⟨emptyS, emptyS, 0⟩) tSample).status = 200 :=
  ⟨rfl, by decide⟩

/-- A parsed services document whose items list is empty. -/
def emptyItemsDoc : String := "\x7b\"items\": []\x7d"

/-- Claim C4 (amended): empty external output is a top-level parse
failure for listServices, yielding the ErrorEnvelope and HTTP 500; the
success boundary with total_count 0 and services [] occurs for a
parseable document with an empty items list. -/
theorem C4_amended_empty_output_is_parse_error (se : String) (es : Int) (now : String) :
    get_services (.ok ⟨emptyS, se, es⟩) now = ⟨500, errEnvelope jsonDecodeMsg now⟩ ∧
    (get_services (.ok ⟨emptyItemsDoc, se, es⟩) now).status = 200 ∧
    (get_services (.ok ⟨emptyItemsDoc, se, es⟩) now).field ("total_count") =
      some (.num 0) ∧
    (get_services (.ok ⟨emptyItemsDoc, se, es⟩) now).field ("services") =
      some (.arr []) :=
  ⟨rfl, rfl, rfl, rfl⟩

/-- Segment count equals filtered-segment count when no segment is
blank (or the input is empty). -/
theorem segment_count_eq_filter_count (t : List Char)
    (h : (splitNl t).all (fun l => !l.isEmpty) = true ∨ t = []) :
    (if t.isEmpty then 0 else (splitNl t).length) =
      ((splitNl t).filter (fun l => !l.isEmpty)).length := by
  rcases h with hall | rfl
  · cases t with
    | nil => simp [splitNl] at hall
    | cons c cs =>
      have hfilter : (splitNl (c :: cs)).filter (fun l => !l.isEmpty) =
          splitNl (c :: cs) := by
        rw [List.filter_eq_self]
        intro a ha
        exact List.all_eq_true.mp hall a ha
      rw [hfilter]
      simp [List.isEmpty_cons]
  · rfl

/-- The services count of health_check coincides with the number of
non-empty lines exactly when the stripped output has no blank interior
segment (or is entirely blank). -/
theorem serviceCount_eq_nonEmptyLines (s : String)
    (h : (splitNl (trimChars s.toList)).all (fun l => !l.isEmpty) = true ∨
      trimChars s.toList = []) :
    serviceCount s = (nonEmptyLines s).length :=
  segment_count_eq_filter_count (trimChars s.toList) h

/-- Counterexample to C6: on output with a blank interior line
("a", blank, "b") health_check reports services_count 3 although the
number of non-empty lines is 2 — `len(stdout.strip().split(chr 10))`
counts blank segments too. -/
theorem C6_counterexample :
    (health_check (.ok ⟨"a\n\nb", emptyS, 0⟩) tSample).field ("services_count") =
      some (.num 3) ∧
    (nonEmptyLines "a\n\nb").length = 2 ∧
    ¬ (health_check (.ok ⟨"a\n\nb", emptyS, 0⟩) tSample).field ("services_count") =
        some (.num ((nonEmptyLines "a\n\nb").length)) := by
  refine ⟨rfl, rfl, fun hc => ?_⟩
  have h1 : some (Json.num 3) = some (Json.num 2) := hc
  simp at h1

/-- Claim C6 (amended): for every completed command result, health_check
returns HTTP 200 and services_count equals the number of
newline-separated segments of the stripped output (0 when the stripped
output is blank); when no interior segment is blank — or the output is
entirely blank — this equals the number of non-empty lines, so 3
non-empty lines give 3 and empty output gives 0. -/
theorem C6_amended_health_counts_segments (r : CmdResult) (now : String)
    (h : (splitNl (trimChars r.stdout.toList)).all (fun l => !l.isEmpty) = true ∨
      trimChars r.stdout.toList = []) :
    (health_check (.ok r) now).status = 200 ∧
    (health_check (.ok r) now).field ("services_count") =
      some (.num ((nonEmptyLines r.stdout).length)) := by
  refine ⟨rfl, ?_⟩
  show some (Json.num (serviceCount r.stdout)) = _
  rw [serviceCount_eq_nonEmptyLines r.stdout h]

/-- Output with exactly three non-empty lines. -/
def threeLines : String := "svc-a line\nsvc-b line\nsvc-c line"

/-- Witness for C6 (amended) at three non-empty lines and at empty
output. -/
theorem C6_witness :
    ((splitNl (trimChars threeLines.toList)).all (fun l => !l.isEmpty) = true ∨
      trimChars threeLines.toList = []) ∧
    (health_check (.ok ⟨threeLines, emptyS, 0⟩) tSample).field ("services_count") =
      some (.num ((nonEmptyLines threeLines).length)) ∧
    (nonEmptyLines threeLines).length = 3 ∧
    (health_check (.ok ⟨emptyS, emptyS, 0⟩) tSample).field ("services_count") =
      some (.num 0) :=
  ⟨Or.inl rfl,
   (C6_amended_health_counts_segments ⟨threeLines, emptyS, 0⟩ tSample (Or.inl rfl)).2,
   rfl,
   (C6_amended_health_counts_segments ⟨emptyS, emptyS, 0⟩ tSample (Or.inr rfl)).2⟩

/-- Claim C5: for every services document that parses to an object whose
items entry is a list of records that all extract successfully,
get_services returns HTTP 200, total_count = N, and a services list of
length N whose entries are the per-item extraction (name, type, ports
as given, cluster IP) in input order. -/
theorem C5_services_maps_items_in_order (r : CmdResult) (now : String)
    (fieldsD : List (String × Json)) (items svcs : List Json)
    (hparse : Json.parse r.stdout = some (.obj fieldsD))
    (hitems : lookupField fieldsD ("items") = some (.arr items))
    (hext : extractAll items = some svcs) :
    (get_services (.ok r) now).status = 200 ∧
    (get_services (.ok r) now).field ("total_count") =
      some (.num (items.length)) ∧
    (get_services (.ok r) now).field ("services") = some (.arr svcs) ∧
    svcs.length = items.length ∧
    (∀ i (h1 : i < items.length) (h2 : i < svcs.length),
      extractService (items.get ⟨i, h1⟩) = some (svcs.get ⟨i, h2⟩)) := by
  have hlen := extractAll_length hext
  have hresp : get_services (.ok r) now = ⟨200, .obj
      [("platform", .str tcPlatform), ("owner", .str tcOwner),
       ("services", .arr svcs), ("total_count", .num (svcs.length)),
       ("timestamp", .str now)]⟩ := by
    simp only [get_services]
    rw [hparse]
    show (match dictGetD (.obj fieldsD) ("items") (.arr []) with
      | none => _ | some itemsVal => _) = _
    simp only [dictGetD]
    rw [hitems]
    show (match extractAll items with | none => _ | some tcServices => _) = _
    rw [hext]
  refine ⟨by rw [hresp], ?_, by rw [hresp]; rfl, hlen,
    fun i h1 h2 => extractAll_get hext i h1 h2⟩
  rw [hresp]
  show some (Json.num (svcs.length)) = some (Json.num (items.length))
  rw [hlen]

/-- A well-formed services document with two items. -/
def twoSvcDoc : String :=
  "\x7b\"items\": [\x7b\"metadata\": \x7b\"name\": \"svc1\"\x7d, \"spec\": \x7b\"type\": \"ClusterIP\", \"ports\": [\x7b\"port\": 80\x7d], \"clusterIP\": \"10.0.0.1\"\x7d\x7d, \x7b\"metadata\": \x7b\"name\": \"svc2\"\x7d, \"spec\": \x7b\"type\": \"NodePort\", \"ports\": [\x7b\"port\": 443\x7d], \"clusterIP\": \"10.0.0.2\"\x7d\x7d]\x7d"

/-- The member list of the parsed two-service document. -/
def doc5fields : List (String × Json) :=
  match Json.parse twoSvcDoc with
  | some (.obj f) => f
  | _ => []

/-- The items of the parsed two-service document. -/
def doc5items : List Json :=
  match lookupField doc5fields ("items") with
  | some (.arr l) => l
  | _ => []

/-- The extracted service summaries of the two-service document. -/
def doc5svcs : List Json := (extractAll doc5items).getD []

/-- Witness for C5 at the concrete two-service document. -/
theorem C5_witness :
    (get_services (.ok ⟨twoSvcDoc, emptyS, 0⟩) tSample).status = 200 ∧
    (get_services (.ok ⟨twoSvcDoc, emptyS, 0⟩) tSample).field ("total_count") =
      some (.num (doc5items.length)) ∧
    (get_services (.ok ⟨twoSvcDoc, emptyS, 0⟩) tSample).field ("services") =
      some (.arr doc5svcs) ∧
    doc5items.length = 2 := by
  have h := C5_services_maps_items_in_order ⟨twoSvcDoc, emptyS, 0⟩ tSample
    doc5fields doc5items doc5svcs rfl rfl rfl
  exact ⟨h.1, h.2.1, h.2.2.1, rfl⟩

/-- The literal registry default value. -/
def unknownS : String := "unknown"

/-- Claim C7: a registry line that parses as a JSON record is turned
into an output record included in the response images; each of the four
source fields that is missing makes the corresponding output field the
literal "unknown". -/
theorem C7_missing_fields_default_unknown (r : CmdResult) (now : String)
    (line : List Char) (fields : List (String × Json))
    (hline : line ∈ nonEmptyLines r.stdout)
    (hparse : Json.parse (String.mk line) = some (.obj fields)) :
    (∃ imgs, (registry_status (.ok r) now).field ("images") =
        some (.arr imgs) ∧ buildImage fields ∈ imgs) ∧
    (lookupField fields ("Repository") = none →
      (buildImage fields).index ("repository") = some (.str unknownS)) ∧
    (lookupField fields ("Tag") = none →
      (buildImage fields).index ("tag") = some (.str unknownS)) ∧
    (lookupField fields ("Size") = none →
      (buildImage fields).index ("size") = some (.str unknownS)) ∧
    (lookupField fields ("CreatedSince") = none →
      (buildImage fields).index ("created") = some (.str unknownS)) := by
  refine ⟨⟨(nonEmptyLines r.stdout).filterMap parseImageLine, rfl, ?_⟩,
    ?_, ?_, ?_, ?_⟩
  · refine List.mem_filterMap.mpr ⟨line, hline, ?_⟩
    unfold parseImageLine
    rw [hparse]
  · intro h
    show some ((lookupField fields ("Repository")).getD (.str unknownS)) = _
    rw [h]
    rfl
  · intro h
    show some ((lookupField fields ("Tag")).getD (.str unknownS)) = _
    rw [h]
    rfl
  · intro h
    show some ((lookupField fields ("Size")).getD (.str unknownS)) = _
    rw [h]
    rfl
  · intro h
    show some ((lookupField fields ("CreatedSince")).getD (.str unknownS)) = _
    rw [h]
    rfl

/-- A registry line that is a valid JSON record with every field
missing. -/
def emptyRecLine : String := "\x7b\x7d"

/-- Witness for C7 at a record line missing all four fields. -/
theorem C7_witness :
    (∃ imgs, (registry_status (.ok ⟨emptyRecLine, emptyS, 0⟩) tSample).field ("images") =
        some (.arr imgs) ∧ buildImage [] ∈ imgs) ∧
    (buildImage []).index ("repository") = some (.str unknownS) ∧
    (buildImage []).index ("tag") = some (.str unknownS) ∧
    (buildImage []).index ("size") = some (.str unknownS) ∧
    (buildImage []).index ("created") = some (.str unknownS) := by
  have h := C7_missing_fields_default_unknown ⟨emptyRecLine, emptyS, 0⟩ tSample
    (String.toList emptyRecLine) [] (List.mem_singleton.mpr rfl) rfl
  exact ⟨h.1, h.2.1 rfl, h.2.2.1 rfl, h.2.2.2.1 rfl, h.2.2.2.2 rfl⟩

/-- Claim C10: a services document that parses, but one of whose items
fails extraction (a required field missing), aborts the entire request:
the error envelope with HTTP 500 and no services list at all. -/
theorem C10_services_item_failure_aborts_request (r : CmdResult) (now : String)
    (fieldsD : List (String × Json)) (items : List Json) (svc : Json)
    (hparse : Json.parse r.stdout = some (.obj fieldsD))
    (hitems : lookupField fieldsD ("items") = some (.arr items))
    (hmem : svc ∈ items) (hfail : extractService svc = none) :
    get_services (.ok r) now = ⟨500, errEnvelope keyErrMsg now⟩ ∧
    (get_services (.ok r) now).field ("services") = none := by
  have hnone := extractAll_eq_none hmem hfail
  have hresp : get_services (.ok r) now = ⟨500, errEnvelope keyErrMsg now⟩ := by
    simp only [get_services]
    rw [hparse]
    show (match dictGetD (.obj fieldsD) ("items") (.arr []) with
      | none => _ | some itemsVal => _) = _
    simp only [dictGetD]
    rw [hitems]
    show (match extractAll items with | none => _ | some tcServices => _) = _
    rw [hnone]
  exact ⟨hresp, by rw [hresp]; rfl⟩

/-- A services document whose single item is missing the clusterIP
field. -/
def noIpDoc : String :=
  "\x7b\"items\": [\x7b\"metadata\": \x7b\"name\": \"svc1\"\x7d, \"spec\": \x7b\"type\": \"ClusterIP\", \"ports\": []\x7d\x7d]\x7d"

/-- The member list of the parsed missing-clusterIP document. -/
def docNoIpFields : List (String × Json) :=
  match Json.parse noIpDoc with
  | some (.obj f) => f
  | _ => []

/-- The items of the parsed missing-clusterIP document. -/
def docNoIpItems : List Json :=
  match lookupField docNoIpFields ("items") with
  | some (.arr l) => l
  | _ => []

/-- The single item of the missing-clusterIP document. -/
def docNoIpItem : Json := docNoIpItems.headD .null

/-- Witness for C10 at the concrete missing-clusterIP document. -/
theorem C10_witness :
    get_services (.ok ⟨noIpDoc, emptyS, 0⟩) tSample =
      ⟨500, errEnvelope keyErrMsg tSample⟩ ∧
    (get_services (.ok ⟨noIpDoc, emptyS, 0⟩) tSample).field ("services") = none := by
  have h := C10_services_item_failure_aborts_request ⟨noIpDoc, emptyS, 0⟩ tSample
    docNoIpFields docNoIpItems docNoIpItem rfl rfl
    (List.mem_singleton.mpr rfl) rfl
  exact h

/-- Removes the top-level timestamp member from a response body. -/
def stripTs : Json → Json
  | .obj fields => .obj (fields.filter (fun p => p.1 != "timestamp"))
  | j => j

/-- Claim C9: with the external-command result fixed, every operation is
deterministic: two calls differ at most in the timestamp field — for
each of the six operations the status and the timestamp-stripped body
are identical across the two calls. -/
theorem C9_deterministic_modulo_timestamp (k : Except String CmdResult)
    (t1 t2 : String) :
    ((health_check k t1).status = (health_check k t2).status ∧
      stripTs (health_check k t1).body = stripTs (health_check k t2).body) ∧
    ((get_services k t1).status = (get_services k t2).status ∧
      stripTs (get_services k t1).body = stripTs (get_services k t2).body) ∧
    ((registry_status k t1).status = (registry_status k t2).status ∧
      stripTs (registry_status k t1).body = stripTs (registry_status k t2).body) ∧
    ((platform_info t1).status = (platform_info t2).status ∧
      stripTs (platform_info t1).body = stripTs (platform_info t2).body) ∧
    ((monitoring_status t1).status = (monitoring_status t2).status ∧
      stripTs (monitoring_status t1).body = stripTs (monitoring_status t2).body) ∧
    ((security_status t1).status = (security_status t2).status ∧
      stripTs (security_status t1).body = stripTs (security_status t2).body) := by
  refine ⟨?_, ?_, ?_, ⟨rfl, rfl⟩, ⟨rfl, rfl⟩, ⟨rfl, rfl⟩⟩
  · cases k with
    | error e => exact ⟨rfl, rfl⟩
    | ok r => exact ⟨rfl, rfl⟩
  · cases k with
    | error e => exact ⟨rfl, rfl⟩
    | ok r =>
      cases hp : Json.parse r.stdout with
      | none =>
        have e1 : get_services (.ok r) t1 = ⟨500, errEnvelope jsonDecodeMsg t1⟩ := by
          simp only [get_services]
          rw [hp]
        have e2 : get_services (.ok r) t2 = ⟨500, errEnvelope jsonDecodeMsg t2⟩ := by
          simp only [get_services]
          rw [hp]
        rw [e1, e2]
        exact ⟨rfl, rfl⟩
      | some doc =>
        cases hd : dictGetD doc ("items") (.arr []) with
        | none =>
          have e1 : get_services (.ok r) t1 = ⟨500, errEnvelope attrErrMsg t1⟩ := by
            simp only [get_services]
            rw [hp]
            show (match dictGetD doc ("items") (.arr []) with
              | none => _ | some itemsVal => _) = _
            rw [hd]
          have e2 : get_services (.ok r) t2 = ⟨500, errEnvelope attrErrMsg t2⟩ := by
            simp only [get_services]
            rw [hp]
            show (match dictGetD doc ("items") (.arr []) with
              | none => _ | some itemsVal => _) = _
            rw [hd]
          rw [e1, e2]
          exact ⟨rfl, rfl⟩
        | some iv =>
          cases hi : iv.iterate with
          | none =>
            have e1 : get_services (.ok r) t1 = ⟨500, errEnvelope typeErrMsg t1⟩ := by
              simp only [get_services]
              rw [hp]
              show (match dictGetD doc ("items") (.arr []) with
                | none => _ | some itemsVal => _) = _
              rw [hd]
              show (match iv.iterate with
                | none => _ | some items => _) = _
              rw [hi]
            have e2 : get_services (.ok r) t2 = ⟨500, errEnvelope typeErrMsg t2⟩ := by
              simp only [get_services]
              rw [hp]
              show (match dictGetD doc ("items") (.arr []) with
                | none => _ | some itemsVal => _) = _
              rw [hd]
              show (match iv.iterate with
                | none => _ | some items => _) = _
              rw [hi]
            rw [e1, e2]
            exact ⟨rfl, rfl⟩
          | some items =>
            cases he : extractAll items with
            | none =>
              have e1 : get_services (.ok r) t1 = ⟨500, errEnvelope keyErrMsg t1⟩ := by
                simp only [get_services]
                rw [hp]
                show (match dictGetD doc ("items") (.arr []) with
                  | none => _ | some itemsVal => _) = _
                rw [hd]
                show (match iv.iterate with
                  | none => _ | some items2 => _) = _
                rw [hi]
                show (match extractAll items with
                  | none => _ | some tcServices => _) = _
                rw [he]
              have e2 : get_services (.ok r) t2 = ⟨500, errEnvelope keyErrMsg t2⟩ := by
                simp only [get_services]
                rw [hp]
                show (match dictGetD doc ("items") (.arr []) with
                  | none => _ | some itemsVal => _) = _
                rw [hd]
                show (match iv.iterate with
                  | none => _ | some items2 => _) = _
                rw [hi]
                show (match extractAll items with
                  | none => _ | some tcServices => _) = _
                rw [he]
              rw [e1, e2]
              exact ⟨rfl, rfl⟩
            | some svcs =>
              have e1 : get_services (.ok r) t1 = ⟨200, .obj
                  [("platform", .str tcPlatform), ("owner", .str tcOwner),
                   ("services", .arr svcs), ("total_count", .num (svcs.length)),
                   ("timestamp", .str t1)]⟩ := by
                simp only [get_services]
                rw [hp]
                show (match dictGetD doc ("items") (.arr []) with
                  | none => _ | some itemsVal => _) = _
                rw [hd]
                show (match iv.iterate with
                  | none => _ | some items2 => _) = _
                rw [hi]
                show (match extractAll items with
                  | none => _ | some tcServices => _) = _
                rw [he]
              have e2 : get_services (.ok r) t2 = ⟨200, .obj
                  [("platform", .str tcPlatform), ("owner", .str tcOwner),
                   ("services", .arr svcs), ("total_count", .num (svcs.length)),
                   ("timestamp", .str t2)]⟩ := by
                simp only [get_services]
                rw [hp]
                show (match dictGetD doc ("items") (.arr []) with
                  | none => _ | some itemsVal => _) = _
                rw [hd]
                show (match iv.iterate with
                  | none => _ | some items2 => _) = _
                rw [hi]
                show (match extractAll items with
                  | none => _ | some tcServices => _) = _
                rw [he]
              rw [e1, e2]
              exact ⟨rfl, rfl⟩
  · cases k with
    | error e => exact ⟨rfl, rfl⟩
    | ok r => exact ⟨rfl, rfl⟩
